import Mathlib

/-!
Verification development for the Meraki Client VPN provisioning utility.

The Python sources (cli.py and meraki_client_vpn_provisioning.py) are
shallowly embedded below.  The remote dashboard API is modelled by explicit
gateway functions passed as parameters: a gateway call either returns a
value or an ApiError, mirroring the exceptions raised by the vendor SDK.
Python dictionaries keyed by strings are modelled as association lists in
insertion order, and the random source used for password generation is
modelled as an explicit stream of choices.
-/

/-- An error raised by the dashboard gateway.  The msg field models the
parsed error text, that is error.message["errors"][0] in the Python code. -/
structure ApiError where
  msg : String
deriving DecidableEq, Repr

/-- The value stored in the error slot of a status dictionary: either an
exception object returned by the gateway or a plain string such as the
empty string or the literal used for missing users. -/
inductive ErrorField where
  | apiErr (e : ApiError)
  | str (s : String)
deriving DecidableEq, Repr

/-- A user record assembled by the interactive controller or the CSV
reader: optional display name, email address and password.  In the
deactivation path the name slot holds None, hence the Option. -/
structure UserRecord where
  username : Option String
  email : String
  password : String
deriving DecidableEq, Repr

/-- One per-operation status dictionary as accumulated in finalStatus by
createUsers and deactivateUsers: keys success, error, username, network
and password. -/
structure OperationResult where
  success : Bool
  error : ErrorField
  username : Option String
  network : String
  password : String
deriving DecidableEq, Repr

/-- One entry of the list returned by the gateway auth-user listing:
user id and email. -/
structure AuthUser where
  id : String
  email : String
deriving DecidableEq, Repr

/-- One Meraki network as listed by the dashboard: display name and id. -/
structure Network where
  name : String
  id : String
deriving DecidableEq, Repr

/-- Python string.ascii_letters. -/
def ascii_letters : String := "abcdefghijklmnopqrstuvwxyzABCDEFGHIJKLMNOPQRSTUVWXYZ"

/-- Python string.digits. -/
def string_digits : String := "0123456789"

/-- The alphabet secrets.choice draws from in generatePassword:
string.ascii_letters + string.digits. -/
def passwordAlphabet : List Char := (ascii_letters ++ string_digits).toList

/-- Embedding of cli.generatePassword.  The secure random source is
modelled by the choice stream: draw i of the comprehension picks
passwordAlphabet[choice i]. -/
def generatePassword (choice : Nat → Fin passwordAlphabet.length) : String :=
  String.mk ((List.range 24).map (fun i => passwordAlphabet.get (choice i)))

/-- A character is an ASCII letter (either case) or a decimal digit. -/
def isAsciiLetterOrDigit (c : Char) : Bool :=
  ( 'a' ≤ c && c ≤ 'z') || ( 'A' ≤ c && c ≤ 'Z') || ( '0' ≤ c && c ≤ '9')

theorem passwordAlphabet_chars : ∀ c ∈ passwordAlphabet, isAsciiLetterOrDigit c = true := by
  decide

theorem generatePassword_spec (choice : Nat → Fin passwordAlphabet.length) :
    (generatePassword choice).length = 24 ∧
    ∀ c ∈ (generatePassword choice).toList, isAsciiLetterOrDigit c = true := by
  constructor
  · simp [generatePassword, String.length]
  · intro c hc
    have hc' : c ∈ (List.range 24).map (fun i => passwordAlphabet.get (choice i)) := hc
    rcases List.mem_map.mp hc' with ⟨i, _, rfl⟩
    exact passwordAlphabet_chars _ (passwordAlphabet.get_mem _ _)

/-- C4: every password produced by generatePassword is exactly 24
characters long and every character is an ASCII letter or decimal digit. -/
theorem generatePassword_length_alphabet (choice : Nat → Fin passwordAlphabet.length) :
    (generatePassword choice).length = 24 ∧
    ∀ c ∈ (generatePassword choice).toList, isAsciiLetterOrDigit c = true :=
  generatePassword_spec choice

/-- Python str.strip: drop whitespace from both ends.  Modelled over the
character list since the utility only strips short tokens. -/
def pyStrip (s : String) : String :=
  String.mk ((((s.toList).dropWhile Char.isWhitespace).reverse.dropWhile Char.isWhitespace).reverse)

/-- Lower-casing of one ASCII character, as Python str.lower does on the
inputs this utility handles. -/
def pyCharLower (c : Char) : Char :=
  if 'A' ≤ c && c ≤ 'Z' then Char.ofNat (c.toNat + 32) else c

/-- Python str.lower over a whole string. -/
def pyLower (s : String) : String := String.mk (s.toList.map pyCharLower)

/-- Helper for pySplitComma: split a character list at every comma. -/
def splitOnCommaAux : List Char → List (List Char)
  | [] => [[]]
  | c :: rest =>
    match splitOnCommaAux rest with
    | [] => [[c]]
    | cur :: done => if c = ',' then [] :: cur :: done else (c :: cur) :: done

/-- Python str.split on a comma.  Also models the csv module row splitting
for the plain unquoted rows this utility documents. -/
def pySplitComma (s : String) : List String := (splitOnCommaAux s.toList).map String.mk

/-- Helper for pyInt: read a non-empty run of decimal digits. -/
def digitsValAux : Nat → List Char → Option Nat
  | acc, [] => some acc
  | acc, c :: rest => if c.isDigit then digitsValAux (acc * 10 + (c.toNat - 48)) rest else none

/-- Python int() on an already stripped token: optional sign followed by
at least one decimal digit, anything else raises ValueError (none). -/
def pyInt (s : String) : Option Int :=
  match s.toList with
  | [] => none
  | [ '-'] => none
  | [ '+'] => none
  | '-' :: c :: rest => (digitsValAux 0 (c :: rest)).map (fun n => -(n : Int))
  | '+' :: c :: rest => (digitsValAux 0 (c :: rest)).map (fun n => (n : Int))
  | cs => (digitsValAux 0 cs).map (fun n => (n : Int))

/-- Helper for pyIn: check whether the needle occurs as a contiguous run
inside the haystack. -/
def containsSub (needle : List Char) : List Char → Bool
  | [] => needle.isPrefixOf []
  | c :: rest => needle.isPrefixOf (c :: rest) || containsSub needle rest

/-- The Python substring test: needle in haystack. -/
def pyIn (needle hay : String) : Bool := containsSub needle.toList hay.toList

/-- Partial status dictionary returned by MerakiVPN.createNewVPNUser:
on success a password key is present, on failure it is absent. -/
structure CreateCallStatus where
  success : Bool
  password : Option String
  error : ErrorField
deriving DecidableEq, Repr

/-- Embedding of MerakiVPN.createNewVPNUser.  The gateway endpoint
dashboard.networks.createNetworkMerakiAuthUser is the gwCreate parameter,
applied to network id, name, email, password and the authorization zone;
any exception it raises is caught and stored in the failure dictionary. -/
def createNewVPNUser
    (gwCreate : String → Option String → String → String → String → Except ApiError Unit)
    (network : String) (username : Option String) (email password appliance : String) :
    CreateCallStatus :=
  match gwCreate network username email password appliance with
  | Except.error e => { success := false, password := none, error := ErrorField.apiErr e }
  | Except.ok _ => { success := true, password := some password, error := ErrorField.str "" }

/-- Body of the inner loop of cli.createUsers for one (network, user)
pair: call MerakiVPN.createNewVPNUser against the network id nw.2, then
extend the returned status dictionary with the username, the network name
nw.1 and the submitted password.  target_networks is the Python dict of
network name to network id, kept as an association list in insertion
order. -/
def createUserRecord
    (gwCreate : String → Option String → String → String → String → Except ApiError Unit)
    (nw : String × String) (user : UserRecord) : OperationResult :=
  let appliance := nw.1 ++ " - appliance"
  let st := createNewVPNUser gwCreate nw.2 user.username user.email user.password appliance
  { success := st.success
    error := st.error
    username := user.username
    network := nw.1
    password := user.password }

/-- Embedding of cli.createUsers, continued: the nested loops over
target_networks and userList become flatMap and map over the loop body. -/
def createUsers
    (gwCreate : String → Option String → String → String → String → Except ApiError Unit)
    (userList : List UserRecord) (target_networks : List (String × String)) :
    List OperationResult :=
  target_networks.flatMap (fun nw => userList.map (createUserRecord gwCreate nw))

/-- The pair of fields a creation record is tagged with: the originating
network name and the username slot. -/
def netUserTag (r : OperationResult) : String × Option String := (r.network, r.username)

theorem length_flatMap_const {α β : Type} (l : List α) (f : α → List β) (k : Nat)
    (h : ∀ a, (f a).length = k) : (l.flatMap f).length = l.length * k := by
  induction l with
  | nil => simp
  | cons a t ih =>
    simp only [List.flatMap_cons, List.length_append, ih, h, List.length_cons]
    ring

theorem createUsers_length
    (gwCreate : String → Option String → String → String → String → Except ApiError Unit)
    (userList : List UserRecord) (target_networks : List (String × String)) :
    (createUsers gwCreate userList target_networks).length =
      target_networks.length * userList.length := by
  exact length_flatMap_const _ _ _ (fun nw => List.length_map _ _)

theorem flatMap_map_getElem? {α β γ : Type} (l : List α) (bs : List β) (g : α → β → γ)
    (i j : Nat) (a : α) (b : β) (ha : l[i]? = some a) (hb : bs[j]? = some b) :
    (l.flatMap (fun x => bs.map (g x)))[i * bs.length + j]? = some (g a b) := by
  induction l generalizing i with
  | nil => simp at ha
  | cons x t ih =>
    have hj : j < bs.length := (List.getElem?_eq_some.mp hb).1
    cases i with
    | zero =>
      have hx : x = a := by simpa using ha
      subst hx
      rw [List.flatMap_cons, Nat.zero_mul, Nat.zero_add, List.getElem?_append,
        if_pos (by simpa using hj), List.getElem?_map, hb]
      rfl
    | succ i =>
      have ha' : t[i]? = some a := by simpa using ha
      have hsucc : (i + 1) * bs.length + j = (bs.map (g x)).length + (i * bs.length + j) := by
        simp only [List.length_map, Nat.succ_mul]
        omega
      rw [List.flatMap_cons, hsucc, List.getElem?_append, if_neg (by omega),
        Nat.add_sub_cancel_left]
      exact ih i ha'

/-- A gateway whose create endpoint always succeeds. -/
def gwOk0 : String → Option String → String → String → String → Except ApiError Unit :=
  fun _ _ _ _ _ => Except.ok ()

/-- A concrete creation user whose display name differs from the email. -/
def aliceUser : UserRecord :=
  { username := some "Alice", email := "alice@example.com", password := "pw1" }

/-- C1 counterexample: for the single (network, user) pair below the batch
produces one record, but the record is tagged with the display name
"Alice", not with the email alice@example.com: the email appears in no
field of the record, so the records are not tagged with the user email as
claimed. -/
theorem createUsers_email_tag_cex :
    createUsers gwOk0 [aliceUser] [("Net1", "N_111")] =
      [{ success := true
         error := ErrorField.str ""
         username := some "Alice"
         network := "Net1"
         password := "pw1" }] ∧
    (some "Alice" ≠ some aliceUser.email ∧
      "Net1" ≠ aliceUser.email ∧ "pw1" ≠ aliceUser.email) := by
  decide

/-- C1 (amended): for every non-empty target-network map and non-empty
user list, createUsers produces exactly |networks| times |users| records,
and the record for pair (i, j) is tagged with the originating network
name and with the user's username slot (the code stores the display name
there, not the email address). -/
theorem createUsers_cartesian_tags
    (gwCreate : String → Option String → String → String → String → Except ApiError Unit)
    (userList : List UserRecord) (target_networks : List (String × String))
    (hn : target_networks ≠ []) (hu : userList ≠ [])
    (i j : Nat) (nw : String × String) (u : UserRecord)
    (hi : target_networks[i]? = some nw) (hj : userList[j]? = some u) :
    (createUsers gwCreate userList target_networks).length =
      target_networks.length * userList.length ∧
    ((createUsers gwCreate userList target_networks)[i * userList.length + j]?).map netUserTag =
      some (nw.1, u.username) := by
  refine ⟨createUsers_length _ _ _, ?_⟩
  have h := flatMap_map_getElem? target_networks userList (createUserRecord gwCreate)
    i j nw u hi hj
  rw [createUsers, h]
  rfl

theorem createUsers_cartesian_tags_witness :
    (createUsers gwOk0 [aliceUser] [("Net1", "N_111")]).length = 1 * 1 ∧
    ((createUsers gwOk0 [aliceUser] [("Net1", "N_111")])[0 * 1 + 0]?).map netUserTag =
      some ("Net1", some "Alice") :=
  createUsers_cartesian_tags gwOk0 [aliceUser] [("Net1", "N_111")]
    (by decide) (by decide) 0 0 ("Net1", "N_111") aliceUser rfl rfl

/-- C5: every record of a creation batch whose stored gateway error text
holds the substring "already exists" still carries success = false: the
already-active treatment in the progress display never changes the
recorded flag. -/
theorem already_exists_success_flag_false
    (gwCreate : String → Option String → String → String → String → Except ApiError Unit)
    (userList : List UserRecord) (target_networks : List (String × String))
    (r : OperationResult) (e : ApiError)
    (hr : r ∈ createUsers gwCreate userList target_networks)
    (he : r.error = ErrorField.apiErr e)
    (hsub : pyIn "already exists" e.msg = true) :
    r.success = false := by
  rcases List.mem_flatMap.mp hr with ⟨nw, _, hm⟩
  rcases List.mem_map.mp hm with ⟨u, _, rfl⟩
  simp only [createUserRecord, createNewVPNUser] at he ⊢
  cases hgw : gwCreate nw.2 u.username u.email u.password (nw.1 ++ " - appliance") with
  | error e' => simp [hgw]
  | ok v => rw [hgw] at he; simp at he

/-- A gateway whose create endpoint always reports an existing account. -/
def gwAlready : String → Option String → String → String → String → Except ApiError Unit :=
  fun _ _ _ _ _ => Except.error { msg := "Name already exists for this network" }

/-- The record the batch stores for aliceUser under gwAlready. -/
def alreadyRec : OperationResult :=
  { success := false
    error := ErrorField.apiErr { msg := "Name already exists for this network" }
    username := some "Alice"
    network := "Net1"
    password := "pw1" }

theorem already_exists_success_flag_false_witness : alreadyRec.success = false :=
  already_exists_success_flag_false gwAlready [aliceUser] [("Net1", "N_111")]
    alreadyRec { msg := "Name already exists for this network" }
    (by decide) (by decide) (by decide)

/-- Embedding of MerakiVPN.getMerakiAuthUsers.  The gateway endpoint
dashboard.networks.getNetworkMerakiAuthUsers is the gwList parameter; the
Python method has no try block, so an exception from the gateway
propagates to the caller (the Except.error branch).  Otherwise the method
returns the id of the first user whose email matches, and None when the
list is empty or no user matches. -/
def getMerakiAuthUsers (gwList : String → Except ApiError (List AuthUser))
    (network_id email_address : String) : Except ApiError (Option String) :=
  match gwList network_id with
  | Except.error e => Except.error e
  | Except.ok userList =>
    if userList.length = 0 then Except.ok none
    else Except.ok ((userList.find? (fun user => user.email = email_address)).map AuthUser.id)

/-- Status dictionary returned by MerakiVPN.deactivateUser.  The Python
method catches APIError from the delete endpoint and stores it. -/
structure DeleteCallStatus where
  success : Bool
  error : ErrorField
deriving DecidableEq, Repr

/-- Embedding of MerakiVPN.deactivateUser over the gateway delete
endpoint dashboard.networks.deleteNetworkMerakiAuthUser. -/
def deactivateUser (gwDelete : String → String → Except ApiError Unit)
    (network_id user_id : String) : DeleteCallStatus :=
  match gwDelete network_id user_id with
  | Except.ok _ => { success := true, error := ErrorField.str "" }
  | Except.error e => { success := false, error := ErrorField.apiErr e }

/-- The id-resolution loop of cli.deactivateUsers: scan target networks in
dict order, querying each for the user id until one matches; the while
wrapper performs a single pass because the inner for either finds an id or
leaves it None, which breaks out.  An exception from getMerakiAuthUsers
propagates. -/
def lookupUserId (gwList : String → Except ApiError (List AuthUser)) :
    List (String × String) → String → Except ApiError (Option String)
  | [], _ => Except.ok none
  | nw :: rest, email =>
    match getMerakiAuthUsers gwList nw.2 email with
    | Except.error e => Except.error e
    | Except.ok (some user_id) => Except.ok (some user_id)
    | Except.ok none => lookupUserId gwList rest email

/-- The failure status recorded when a deactivation target is matched in
no target network. -/
def notFoundRecord (email : String) : OperationResult :=
  { success := false
    error := ErrorField.str "User not found"
    username := some email
    network := "ALL"
    password := "" }

/-- The per-network status record appended while deactivating one resolved
user id on one target network. -/
def deleteUserRecord (gwDelete : String → String → Except ApiError Unit)
    (user_id : String) (email : String) (nw : String × String) : OperationResult :=
  let st := deactivateUser gwDelete nw.2 user_id
  { success := st.success
    error := st.error
    username := some email
    network := nw.1
    password := "" }

/-- Embedding of cli.deactivateUsers.  Besides the finalStatus list, the
second component of the returned pair records every delete call issued,
as (network id, user id) pairs, so that theorems can speak about which
calls the batch performs.  An uncaught exception from the lookup loop
aborts the whole function, losing every accumulated record (the
Except.error branch). -/
def deactivateUsers (gwList : String → Except ApiError (List AuthUser))
    (gwDelete : String → String → Except ApiError Unit) :
    List UserRecord → List (String × String) →
    Except ApiError (List OperationResult × List (String × String))
  | [], _ => Except.ok ([], [])
  | user :: rest, target_networks =>
    match lookupUserId gwList target_networks user.email with
    | Except.error e => Except.error e
    | Except.ok none =>
      match deactivateUsers gwList gwDelete rest target_networks with
      | Except.error e => Except.error e
      | Except.ok (tailRes, tailCalls) =>
        Except.ok (notFoundRecord user.email :: tailRes, tailCalls)
    | Except.ok (some user_id) =>
      match deactivateUsers gwList gwDelete rest target_networks with
      | Except.error e => Except.error e
      | Except.ok (tailRes, tailCalls) =>
        Except.ok (target_networks.map (deleteUserRecord gwDelete user_id user.email) ++ tailRes,
          target_networks.map (fun nw => (nw.2, user_id)) ++ tailCalls)

/-- C2: over a non-empty target-network map, the first user of a
deactivation batch contributes either exactly one not-found record (ALL
network, failure, "User not found") or exactly one record per target
network, never a mixture and never zero, and the remaining records are
exactly the batch over the remaining users.  Instantiating the remaining
users again settles every user of the list. -/
theorem deactivateUsers_per_user_block
    (gwList : String → Except ApiError (List AuthUser))
    (gwDelete : String → String → Except ApiError Unit)
    (user : UserRecord) (rest : List UserRecord) (target_networks : List (String × String))
    (res : List OperationResult) (calls : List (String × String))
    (hn : target_networks ≠ [])
    (hok : deactivateUsers gwList gwDelete (user :: rest) target_networks =
      Except.ok (res, calls)) :
    ∃ block tailRes tailCalls,
      res = block ++ tailRes ∧
      deactivateUsers gwList gwDelete rest target_networks = Except.ok (tailRes, tailCalls) ∧
      1 ≤ block.length ∧
      ((block.length = 1 ∧ block.map OperationResult.network = ["ALL"] ∧
          block.map OperationResult.success = [false] ∧
          block.map OperationResult.error = [ErrorField.str "User not found"]) ∨
        (block.length = target_networks.length ∧
          block.map OperationResult.network = target_networks.map Prod.fst)) := by
  simp only [deactivateUsers] at hok
  cases hl : lookupUserId gwList target_networks user.email with
  | error e => rw [hl] at hok; cases hok
  | ok o =>
    rw [hl] at hok
    cases o with
    | none =>
      cases ht : deactivateUsers gwList gwDelete rest target_networks with
      | error e => rw [ht] at hok; cases hok
      | ok p =>
        obtain ⟨tailRes, tailCalls⟩ := p
        rw [ht] at hok
        simp only [Except.ok.injEq, Prod.mk.injEq] at hok
        obtain ⟨h1, h2⟩ := hok
        refine ⟨[notFoundRecord user.email], tailRes, tailCalls, ?_, rfl, by simp, ?_⟩
        · rw [← h1]; rfl
        · left
          simp [notFoundRecord]
    | some user_id =>
      cases ht : deactivateUsers gwList gwDelete rest target_networks with
      | error e => rw [ht] at hok; cases hok
      | ok p =>
        obtain ⟨tailRes, tailCalls⟩ := p
        rw [ht] at hok
        simp only [Except.ok.injEq, Prod.mk.injEq] at hok
        obtain ⟨h1, h2⟩ := hok
        refine ⟨target_networks.map (deleteUserRecord gwDelete user_id user.email),
          tailRes, tailCalls, h1.symm, rfl, ?_, ?_⟩
        · simpa using List.length_pos.mpr hn
        · right
          constructor
          · simp
          · simp [List.map_map, deleteUserRecord]

/-- A pair of target networks used by concrete instances. -/
def nets2 : List (String × String) := [("NetA", "idA"), ("NetB", "idB")]

/-- A gateway auth-user listing under which carol@example.com exists only
on the second target network. -/
def gwFound : String → Except ApiError (List AuthUser) :=
  fun nid =>
    if nid = "idB" then Except.ok [{ id := "u1", email := "carol@example.com" }]
    else Except.ok []

/-- A gateway whose delete endpoint always succeeds. -/
def gwDelOk : String → String → Except ApiError Unit := fun _ _ => Except.ok ()

/-- A deactivation target that is found on the second network. -/
def carolUser : UserRecord := { username := none, email := "carol@example.com", password := "" }

/-- The records stored for carolUser: one per target network. -/
def carolRes : List OperationResult :=
  [{ success := true, error := ErrorField.str "", username := some "carol@example.com",
     network := "NetA", password := "" },
   { success := true, error := ErrorField.str "", username := some "carol@example.com",
     network := "NetB", password := "" }]

/-- The delete calls issued for carolUser. -/
def carolCalls : List (String × String) := [("idA", "u1"), ("idB", "u1")]

theorem deactivateUsers_per_user_block_witness :
    ∃ block tailRes tailCalls,
      carolRes = block ++ tailRes ∧
      deactivateUsers gwFound gwDelOk [] nets2 = Except.ok (tailRes, tailCalls) ∧
      1 ≤ block.length ∧
      ((block.length = 1 ∧ block.map OperationResult.network = ["ALL"] ∧
          block.map OperationResult.success = [false] ∧
          block.map OperationResult.error = [ErrorField.str "User not found"]) ∨
        (block.length = nets2.length ∧
          block.map OperationResult.network = nets2.map Prod.fst)) :=
  deactivateUsers_per_user_block gwFound gwDelOk carolUser [] nets2 carolRes carolCalls
    (by decide) (by rfl)

/-- C6: when the id lookup matches a deactivation target in no target
network, the batch stores exactly one failure record for that user, whose
network field is the sentinel ALL and whose error is "User not found";
the delete-call log is exactly the one of the remaining users, so no
delete call is issued for that user, and the remaining records are
exactly the batch over the remaining users. -/
theorem lookup_miss_single_all_record
    (gwList : String → Except ApiError (List AuthUser))
    (gwDelete : String → String → Except ApiError Unit)
    (user : UserRecord) (rest : List UserRecord) (target_networks : List (String × String))
    (res : List OperationResult) (calls : List (String × String))
    (hmiss : lookupUserId gwList target_networks user.email = Except.ok none)
    (hok : deactivateUsers gwList gwDelete (user :: rest) target_networks =
      Except.ok (res, calls)) :
    ∃ tailRes,
      deactivateUsers gwList gwDelete rest target_networks = Except.ok (tailRes, calls) ∧
      res = notFoundRecord user.email :: tailRes ∧
      (notFoundRecord user.email).network = "ALL" ∧
      (notFoundRecord user.email).success = false ∧
      (notFoundRecord user.email).error = ErrorField.str "User not found" := by
  simp only [deactivateUsers, hmiss] at hok
  cases ht : deactivateUsers gwList gwDelete rest target_networks with
  | error e => rw [ht] at hok; cases hok
  | ok p =>
    obtain ⟨tailRes, tailCalls⟩ := p
    rw [ht] at hok
    simp only [Except.ok.injEq, Prod.mk.injEq] at hok
    obtain ⟨h1, h2⟩ := hok
    subst h2
    exact ⟨tailRes, rfl, h1.symm, rfl, rfl, rfl⟩

/-- A gateway auth-user listing that never finds anybody. -/
def gwNone : String → Except ApiError (List AuthUser) := fun _ => Except.ok []

/-- A deactivation target that exists on no network. -/
def daveUser : UserRecord := { username := none, email := "dave@example.com", password := "" }

theorem lookup_miss_single_all_record_witness :
    ∃ tailRes,
      deactivateUsers gwNone gwDelOk [] nets2 = Except.ok (tailRes, []) ∧
      [notFoundRecord "dave@example.com"] = notFoundRecord "dave@example.com" :: tailRes ∧
      (notFoundRecord "dave@example.com").network = "ALL" ∧
      (notFoundRecord "dave@example.com").success = false ∧
      (notFoundRecord "dave@example.com").error = ErrorField.str "User not found" :=
  lookup_miss_single_all_record gwNone gwDelOk daveUser [] nets2
    [notFoundRecord "dave@example.com"] [] (by rfl) (by rfl)

/-- A gateway auth-user listing that raises on every call. -/
def gwListBoom : String → Except ApiError (List AuthUser) :=
  fun _ => Except.error { msg := "server error" }

/-- A second deactivation target. -/
def erinUser : UserRecord := { username := none, email := "erin@example.com", password := "" }

/-- C3 counterexample: an error returned by the gateway during the
auth-user list call is not captured into a result record.
getMerakiAuthUsers has no exception handler, so the whole deactivation
batch aborts: the remaining (network, user) pairs are not processed and
no record at all is returned. -/
theorem gateway_error_aborts_deactivation_cex :
    deactivateUsers gwListBoom gwDelOk [daveUser, erinUser] nets2 =
      Except.error { msg := "server error" } := by
  rfl

theorem createUserRecord_failure
    (gwCreate : String → Option String → String → String → String → Except ApiError Unit)
    (nw : String × String) (u : UserRecord) :
    (createUserRecord gwCreate nw u).success = false →
    ∃ e, (createUserRecord gwCreate nw u).error = ErrorField.apiErr e := by
  simp only [createUserRecord, createNewVPNUser]
  cases hgw : gwCreate nw.2 u.username u.email u.password (nw.1 ++ " - appliance") <;> simp

theorem lookupUserId_total (gwList : String → Except ApiError (List AuthUser))
    (htotal : ∀ nid, ∃ l, gwList nid = Except.ok l)
    (nets : List (String × String)) (email : String) :
    ∃ o, lookupUserId gwList nets email = Except.ok o := by
  induction nets with
  | nil => exact ⟨none, rfl⟩
  | cons nw rest ih =>
    obtain ⟨l, hl⟩ := htotal nw.2
    simp only [lookupUserId, getMerakiAuthUsers, hl]
    by_cases h0 : l.length = 0
    · simpa [h0] using ih
    · rw [if_neg h0]
      cases hf : (l.find? (fun user => user.email = email)) with
      | none => simpa [hf] using ih
      | some u => exact ⟨some u.id, by simp⟩

theorem deactivateUsers_total_captured (gwList : String → Except ApiError (List AuthUser))
    (gwDelete : String → String → Except ApiError Unit)
    (htotal : ∀ nid, ∃ l, gwList nid = Except.ok l)
    (dusers : List UserRecord) (nets : List (String × String)) :
    ∃ res calls, deactivateUsers gwList gwDelete dusers nets = Except.ok (res, calls) ∧
      ∀ r ∈ res, r.success = false →
        r.error = ErrorField.str "User not found" ∨ ∃ e, r.error = ErrorField.apiErr e := by
  induction dusers with
  | nil => exact ⟨[], [], rfl, by simp⟩
  | cons u rest ih =>
    obtain ⟨res, calls, hok, hprop⟩ := ih
    obtain ⟨o, hl⟩ := lookupUserId_total gwList htotal nets u.email
    cases o with
    | none =>
      refine ⟨notFoundRecord u.email :: res, calls, ?_, ?_⟩
      · simp only [deactivateUsers, hl, hok]
      · intro r hr hf
        rcases List.mem_cons.mp hr with rfl | hr'
        · left; rfl
        · exact hprop r hr' hf
    | some uid =>
      refine ⟨nets.map (deleteUserRecord gwDelete uid u.email) ++ res,
        nets.map (fun nw => (nw.2, uid)) ++ calls, ?_, ?_⟩
      · simp only [deactivateUsers, hl, hok]
      · intro r hr hf
        rcases List.mem_append.mp hr with hr' | hr'
        · rcases List.mem_map.mp hr' with ⟨nw, _, rfl⟩
          right
          revert hf
          simp only [deleteUserRecord, deactivateUser]
          cases hgw : gwDelete nw.2 uid <;> simp
        · exact hprop r hr' hf

/-- C3 (amended): an error returned by the gateway during a create or
delete call is captured into that operation's result record and never
aborts the batch: the creation batch always returns the full Cartesian
product of records, failed creations and deletions store the gateway
error, and provided the auth-user list calls return without raising, the
deactivation batch returns a record list whose failures all carry either
the not-found text or the gateway error.  An error raised by the
auth-user list call itself is not caught and aborts the deactivation
batch (see the counterexample). -/
theorem gateway_errors_captured_create_delete
    (gwCreate : String → Option String → String → String → String → Except ApiError Unit)
    (gwList : String → Except ApiError (List AuthUser))
    (gwDelete : String → String → Except ApiError Unit)
    (cusers dusers : List UserRecord) (nets : List (String × String))
    (htotal : ∀ nid, ∃ l, gwList nid = Except.ok l) :
    (createUsers gwCreate cusers nets).length = nets.length * cusers.length ∧
    (∀ r ∈ createUsers gwCreate cusers nets, r.success = false →
      ∃ e, r.error = ErrorField.apiErr e) ∧
    ∃ res calls, deactivateUsers gwList gwDelete dusers nets = Except.ok (res, calls) ∧
      ∀ r ∈ res, r.success = false →
        r.error = ErrorField.str "User not found" ∨ ∃ e, r.error = ErrorField.apiErr e := by
  refine ⟨createUsers_length _ _ _, ?_, deactivateUsers_total_captured _ _ htotal _ _⟩
  intro r hr hf
  rcases List.mem_flatMap.mp hr with ⟨nw, _, hm⟩
  rcases List.mem_map.mp hm with ⟨u, _, rfl⟩
  exact createUserRecord_failure gwCreate nw u hf

theorem gateway_errors_captured_create_delete_witness :
    (createUsers gwAlready [aliceUser] nets2).length = nets2.length * 1 ∧
    (∀ r ∈ createUsers gwAlready [aliceUser] nets2, r.success = false →
      ∃ e, r.error = ErrorField.apiErr e) ∧
    ∃ res calls, deactivateUsers gwNone gwDelOk [daveUser] nets2 = Except.ok (res, calls) ∧
      ∀ r ∈ res, r.success = false →
        r.error = ErrorField.str "User not found" ∨ ∃ e, r.error = ErrorField.apiErr e :=
  gateway_errors_captured_create_delete gwAlready gwNone gwDelOk [aliceUser] [daveUser] nets2
    (fun nid => ⟨[], rfl⟩)

/-- Python dict assignment d[k] = v over a dict kept as an association
list: an existing key keeps its position and gets the new value, a new
key is appended. -/
def dictInsert (d : List (String × String)) (k v : String) : List (String × String) :=
  if d.any (fun p => p.1 = k) then d.map (fun p => if p.1 = k then (k, v) else p)
  else d ++ [(k, v)]

/-- A Python dict built by inserting pairs in order, as a dict
comprehension does: a later value for a repeated key overwrites. -/
def pyDictOfList (l : List (String × String)) : List (String × String) :=
  l.foldl (fun d p => dictInsert d p.1 p.2) []

/-- The name-to-id pairs of the candidate networks, in display order. -/
def candidatePairs (networks : List Network) : List (String × String) :=
  networks.map (fun n => (n.name, n.id))

/-- The ALL branch of cli.promptSelectNetworks: the dict comprehension
over every candidate network. -/
def selectAllNetworks (networks : List Network) : List (String × String) :=
  pyDictOfList (candidatePairs networks)

/-- Python list indexing networks[i]: a negative index wraps around from
the end, and none models IndexError. -/
def pyGet (l : List Network) (i : Int) : Option Network :=
  if i < 0 then
    if 0 ≤ (l.length : Int) + i then l[((l.length : Int) + i).toNat]? else none
  else l[i.toNat]?

/-- The pair list built by the selection dict comprehension: each token is
skipped when it is the literal "0", parsed with int() (ValueError gives
none) and looked up as networks[int(num) - 1] (IndexError gives none). -/
def selectionPairs (networks : List Network) : List String → Option (List (String × String))
  | [] => some []
  | tok :: rest =>
    if tok = "0" then selectionPairs networks rest
    else
      match pyInt tok with
      | none => none
      | some n =>
        match pyGet networks (n - 1) with
        | none => none
        | some nw => (selectionPairs networks rest).map (fun tail => (nw.name, nw.id) :: tail)

/-- One non-ALL iteration of the selection loop of
cli.promptSelectNetworks: strip and split the entered text on commas,
then build the target dict; none models the except branch that resets
target_networks and restarts the loop. -/
def parseSelection (networks : List Network) (input : String) : Option (List (String × String)) :=
  (selectionPairs networks ((pySplitComma input).map pyStrip)).map pyDictOfList

/-- One operator interaction with the selection prompt: the entered text
and the answer later given to the confirmation prompt. -/
structure Attempt where
  input : String
  confirm : Bool
deriving DecidableEq, Repr

/-- Embedding of the selection loop of cli.promptSelectNetworks over a
finite stream of operator attempts; none models a loop still waiting for
more input.  The ALL keyword returns the full dict at once, without
confirmation; a parse failure or a declined confirmation resets
target_networks to None and the loop restarts on the next attempt. -/
def promptSelectNetworks (networks : List Network) :
    List Attempt → Option (List (String × String))
  | [] => none
  | a :: rest =>
    if pyLower a.input = "all" then some (selectAllNetworks networks)
    else
      match parseSelection networks a.input with
      | none => promptSelectNetworks networks rest
      | some d => if a.confirm then some d else promptSelectNetworks networks rest

theorem dictInsert_fresh (d : List (String × String)) (k v : String)
    (h : d.any (fun p => p.1 = k) = false) : dictInsert d k v = d ++ [(k, v)] := by
  simp only [dictInsert, h]
  simp

theorem pyDictOfList_foldl_nodup (l : List (String × String)) :
    ∀ d : List (String × String), ((d ++ l).map Prod.fst).Nodup →
      l.foldl (fun acc p => dictInsert acc p.1 p.2) d = d ++ l := by
  induction l with
  | nil => intro d _; simp
  | cons p t ih =>
    intro d h
    have hmem : p.1 ∉ d.map Prod.fst := by
      simp only [List.map_append, List.map_cons, List.nodup_append] at h
      intro hc
      exact h.2.2 hc (by simp)
    have hfresh : d.any (fun q => q.1 = p.1) = false := by
      rw [List.any_eq_false]
      intro q hq
      simp only [decide_eq_true_eq]
      intro hc
      exact hmem (hc ▸ List.mem_map_of_mem Prod.fst hq)
    rw [List.foldl_cons, dictInsert_fresh d p.1 p.2 hfresh]
    have h' : (((d ++ [p]) ++ t).map Prod.fst).Nodup := by
      simpa [List.append_assoc] using h
    have := ih (d ++ [p]) h'
    simpa [List.append_assoc] using this

theorem pyDictOfList_nodup (l : List (String × String)) (h : (l.map Prod.fst).Nodup) :
    pyDictOfList l = l := by
  have := pyDictOfList_foldl_nodup l [] (by simpa using h)
  simpa [pyDictOfList] using this

/-- Two candidate networks with duplicate display names. -/
def netsDup : List Network := [{ name := "Net", id := "id1" }, { name := "Net", id := "id2" }]

/-- C7 counterexample: with two candidate networks sharing one display
name, entering the ALL keyword yields a one-entry dict in which the
second id has overwritten the first: the target set is not equal to the
full candidate list and the first network's name-to-id mapping is lost. -/
theorem selectAll_duplicate_names_cex :
    promptSelectNetworks netsDup [{ input := "ALL", confirm := true }] = some [("Net", "id2")] ∧
    candidatePairs netsDup = [("Net", "id1"), ("Net", "id2")] ∧
    some [("Net", "id2")] ≠ some (candidatePairs netsDup) := by
  decide

/-- C7 (amended): for every candidate network list whose display names
are pairwise distinct, entering the ALL keyword at the selection prompt
yields the full candidate list with every name mapped to that network's
id.  With duplicate names the dict comprehension collapses entries (see
the counterexample). -/
theorem selectAll_full_candidate_map
    (networks : List Network) (a : Attempt) (attempts : List Attempt)
    (hnd : (networks.map Network.name).Nodup) (hall : pyLower a.input = "all") :
    promptSelectNetworks networks (a :: attempts) = some (candidatePairs networks) := by
  simp only [promptSelectNetworks]
  rw [if_pos hall]
  have : selectAllNetworks networks = candidatePairs networks := by
    rw [selectAllNetworks]
    apply pyDictOfList_nodup
    simpa [candidatePairs, List.map_map, Function.comp] using hnd
  rw [this]

/-- Two candidate networks with distinct display names. -/
def netsAB : List Network := [{ name := "NetA", id := "idA" }, { name := "NetB", id := "idB" }]

theorem selectAll_full_candidate_map_witness :
    promptSelectNetworks netsAB [{ input := "ALL", confirm := false }] =
      some (candidatePairs netsAB) :=
  selectAll_full_candidate_map netsAB { input := "ALL", confirm := false } []
    (by decide) (by decide)

/-- C8 counterexample: with two candidate networks, the out-of-range
index token "-1" is not rejected: Python negative indexing wraps
networks[-2] around to the first network and the selection is accepted.
Likewise "-0" denotes index 0 but escapes the literal-"0" skip and
selects the last network. -/
theorem negative_index_accepted_cex :
    parseSelection netsAB "-1" = some [("NetA", "idA")] ∧
    parseSelection netsAB "-0" = some [("NetB", "idB")] := by
  decide

/-- C8 (amended): the literal token "0" is silently ignored; a token
whose integer value n lies beyond the candidates in either direction
(n > length, or n + length < 1 once negative wraparound is accounted
for) is rejected and the whole entry yields no selection; and an entry
that fails to parse resets the selection, the loop continuing with the
later attempts only, so no previously confirmed state is corrupted.
Tokens with 1 - length <= n <= 0 other than the literal "0" are however
accepted through Python negative indexing (see the counterexample). -/
theorem index_selection_validation
    (networks : List Network) (tok : String) (toks : List String) (n : Int)
    (a : Attempt) (attempts : List Attempt)
    (htok : pyInt tok = some n) (h0 : tok ≠ "0")
    (hout : (networks.length : Int) < n ∨ n + (networks.length : Int) < 1)
    (hbad : parseSelection networks a.input = none) (hnotall : pyLower a.input ≠ "all") :
    selectionPairs networks ("0" :: toks) = selectionPairs networks toks ∧
    selectionPairs networks (tok :: toks) = none ∧
    promptSelectNetworks networks (a :: attempts) = promptSelectNetworks networks attempts := by
  have hget : pyGet networks (n - 1) = none := by
    rcases hout with h | h
    · rw [pyGet, if_neg (by omega)]
      apply List.getElem?_eq_none
      omega
    · rw [pyGet, if_pos (by omega), if_neg (by omega)]
  refine ⟨by simp [selectionPairs], ?_, ?_⟩
  · simp [selectionPairs, h0, htok, hget]
  · simp only [promptSelectNetworks]
    rw [if_neg hnotall, hbad]

theorem index_selection_validation_witness :
    selectionPairs netsAB ["0"] = selectionPairs netsAB [] ∧
    selectionPairs netsAB ["5"] = none ∧
    promptSelectNetworks netsAB [{ input := "xyz", confirm := true }] =
      promptSelectNetworks netsAB [] :=
  index_selection_validation netsAB "5" [] 5 { input := "xyz", confirm := true } []
    (by rfl) (by decide) (by decide) (by rfl) (by decide)

/-- The csv.reader row for one line of the uploaded file: the comma split
of the raw text; the documented format uses plain unquoted cells. -/
def csvSplitRow (s : String) : List String := pySplitComma s

/-- Body of the CSV loop of cli.promptUploadCSV for one row.  A fully
blank row is skipped (ok none); otherwise the leading cells give name and
email after stripping, a missing leading cell raising IndexError (the
error branch); a missing third cell is caught and replaced by a generated
password, and a blank third cell likewise triggers generation. -/
def csvBaseCells (operation : String) (row : List String) : Option (Option String × String) :=
  if operation = "DEACTIVATE" then
    (row[0]?).map (fun c0 => ((none : Option String), pyStrip c0))
  else
    match row[0]?, row[1]? with
    | some c0, some c1 => some (some (pyStrip c0), pyStrip c1)
    | _, _ => none

/-- The password handling and record assembly for one non-blank CSV row,
continued from csvBaseCells. -/
def processCSVLine (operation : String) (choice : Nat → Fin passwordAlphabet.length)
    (row : List String) : Except String (Option UserRecord) :=
  if row.any (fun item => pyStrip item ≠ "") then
    match csvBaseCells operation row with
    | none => Except.error "IndexError"
    | some (username, email) =>
      let pw0 := match row[2]? with
        | some c2 => pyStrip c2
        | none => generatePassword choice
      let pw := if pw0 = "" then generatePassword choice else pw0
      Except.ok (some { username := username, email := email, password := pw })
  else Except.ok none

/-- The record parsed from the Alice row: blank trailing password cell,
so the password is the auto-generated one. -/
def aliceRowRecord (choice : Nat → Fin passwordAlphabet.length) : UserRecord :=
  { username := some "Alice"
    email := "alice@example.com"
    password := generatePassword choice }

/-- The record parsed from the Bob row: the literal password survives. -/
def bobRowRecord : UserRecord :=
  { username := some "Bob"
    email := "bob@example.com"
    password := "Secr3t!" }

/-- C9: parsing the creation row "Alice,alice@example.com," (trailing
blank password cell) yields a record whose password is the auto-generated
one, which has 24 characters and hence is non-empty, while parsing
"Bob,bob@example.com,Secr3t!" keeps the literal password unchanged. -/
theorem csv_row_password_handling (choice : Nat → Fin passwordAlphabet.length) :
    processCSVLine "ADD" choice (csvSplitRow "Alice,alice@example.com,") =
      Except.ok (some (aliceRowRecord choice)) ∧
    (aliceRowRecord choice).password = generatePassword choice ∧
    (generatePassword choice).length = 24 ∧
    generatePassword choice ≠ "" ∧
    processCSVLine "ADD" choice (csvSplitRow "Bob,bob@example.com,Secr3t!") =
      Except.ok (some bobRowRecord) ∧
    bobRowRecord.password = "Secr3t!" := by
  refine ⟨rfl, rfl, (generatePassword_spec choice).1, ?_, rfl, rfl⟩
  intro h
  have := (generatePassword_spec choice).1
  rw [h] at this
  cases this

/-- A Python value stored in a status dictionary. -/
inductive PyValue where
  | bool (b : Bool)
  | str (s : String)
  | err (e : ApiError)
  | pyNone
deriving DecidableEq, Repr

/-- task.values() for one status dictionary: the success flag, the error
slot, the username, the network and the password. -/
def OperationResult.pyValues (r : OperationResult) : List PyValue :=
  [PyValue.bool r.success,
   (match r.error with
    | ErrorField.apiErr e => PyValue.err e
    | ErrorField.str s => PyValue.str s),
   (match r.username with
    | some s => PyValue.str s
    | none => PyValue.pyNone),
   PyValue.str r.network,
   PyValue.str r.password]

/-- The Python comparison value == True: among the values a status
dictionary holds, only the boolean True compares equal to True. -/
def pyEqTrue : PyValue → Bool
  | PyValue.bool b => b
  | _ => false

/-- The Python comparison value == False. -/
def pyEqFalse : PyValue → Bool
  | PyValue.bool b => !b
  | _ => false

/-- The summary loop of cli.main: for every task of finalStatus, add the
number of dictionary values equal to True to the success counter and the
number equal to False to the failure counter. -/
def summarize (finalStatus : List OperationResult) : Nat × Nat :=
  finalStatus.foldl
    (fun acc task =>
      (acc.1 + task.pyValues.countP pyEqTrue, acc.2 + task.pyValues.countP pyEqFalse))
    (0, 0)

theorem pyValues_one_bool (r : OperationResult) :
    r.pyValues.countP pyEqTrue + r.pyValues.countP pyEqFalse = 1 := by
  obtain ⟨s, e, u, nw, pw⟩ := r
  cases s <;> cases e <;> cases u <;>
    simp [OperationResult.pyValues, List.countP_cons, pyEqTrue, pyEqFalse]

theorem summarize_foldl (l : List OperationResult) :
    ∀ s f : Nat,
      (l.foldl (fun acc task =>
        (acc.1 + task.pyValues.countP pyEqTrue, acc.2 + task.pyValues.countP pyEqFalse))
        (s, f)).1 +
      (l.foldl (fun acc task =>
        (acc.1 + task.pyValues.countP pyEqTrue, acc.2 + task.pyValues.countP pyEqFalse))
        (s, f)).2 = s + f + l.length := by
  induction l with
  | nil => intro s f; simp
  | cons r t ih =>
    intro s f
    have hr := pyValues_one_bool r
    simp only [List.foldl_cons]
    rw [ih]
    simp only [List.length_cons]
    omega

theorem summarize_total (l : List OperationResult) :
    (summarize l).1 + (summarize l).2 = l.length := by
  simpa [summarize] using summarize_foldl l 0 0

/-- C10: for every result list returned by createUsers, and by
deactivateUsers when the batch returns, the summary of cli.main counts
every record exactly once: each status dictionary holds exactly one
boolean value, its success flag, so the success count plus the failure
count equals the number of records. -/
theorem summary_counts_total
    (gwCreate : String → Option String → String → String → String → Except ApiError Unit)
    (gwList : String → Except ApiError (List AuthUser))
    (gwDelete : String → String → Except ApiError Unit)
    (cusers dusers : List UserRecord) (nets : List (String × String))
    (res : List OperationResult) (calls : List (String × String))
    (hok : deactivateUsers gwList gwDelete dusers nets = Except.ok (res, calls)) :
    (summarize (createUsers gwCreate cusers nets)).1 +
      (summarize (createUsers gwCreate cusers nets)).2 =
      (createUsers gwCreate cusers nets).length ∧
    (summarize res).1 + (summarize res).2 = res.length :=
  ⟨summarize_total _, summarize_total _⟩

theorem summary_counts_total_witness :
    (summarize (createUsers gwOk0 [aliceUser] nets2)).1 +
      (summarize (createUsers gwOk0 [aliceUser] nets2)).2 =
      (createUsers gwOk0 [aliceUser] nets2).length ∧
    (summarize [notFoundRecord "dave@example.com"]).1 +
      (summarize [notFoundRecord "dave@example.com"]).2 =
      ([notFoundRecord "dave@example.com"] : List OperationResult).length :=
  summary_counts_total gwOk0 gwNone gwDelOk [aliceUser] [daveUser] nets2
    [notFoundRecord "dave@example.com"] [] (by rfl)
